import Mathlib

/-!
# Verification of the exam-simulator quiz pipeline

A shallow embedding of the core data model and operations of the
exam-simulator application (a browser study tool that turns uploaded
documents into multiple-choice exams), together with theorems settling
the specification claims about it.

Source files embedded:
* `src/types.ts` — the data model (Question, QuizResult, AISettings, …).
* `src/unnamed/part_000` (the App component) — settings load/save, history
  bounding and deletion, provider-response mapping, final scoring.
* `src/services/geminiService.ts` — provider selection, Gemini key
  fallback, the OpenAI-compatible request construction, PDF page-text
  aggregation.
* `src/components/QuizInterface.tsx` — the quiz-taking state machine.

JavaScript numbers that hold option indices are modelled as `Int`
(the unanswered sentinel is `-1`); strings as `String`; absent optional
values (`undefined` after optional chaining / missing JSON keys) as
`Option`.
-/

namespace ExamSim

/-! ## Data model (src/types.ts) -/

/-- The `Difficulty` enum from src/types.ts. -/
inductive Difficulty where
  | easy
  | medium
  | hard
deriving DecidableEq, Repr

/-- The `Question` interface from src/types.ts: id, text, options,
correctAnswerIndex, explanation.  The index is an `Int` because it comes
from untrusted provider JSON and may be out of range. -/
structure Question where
  id : Nat
  text : String
  options : List String
  correctAnswerIndex : Int
  explanation : String
deriving DecidableEq, Repr

/-- One record of `GeneratedQuizResponse.questions` from src/types.ts:
the raw provider output before mapping into `Question`. -/
structure RawQuestion where
  questionText : String
  options : List String
  correctAnswerIndex : Int
  explanation : String
deriving DecidableEq, Repr

/-- The `QuizResult` interface from src/types.ts. -/
structure QuizResult where
  score : Nat
  total : Nat
  userAnswers : List Int
  questions : List Question
deriving DecidableEq, Repr

/-- The `QuizHistoryItem` interface from src/types.ts. -/
structure HistoryItem where
  id : String
  fileName : String
  date : String
  difficulty : Difficulty
  questions : List Question
deriving DecidableEq, Repr

/-- The `gemini` part of `AISettings` (src/types.ts). -/
structure GeminiConfig where
  apiKey : String
deriving DecidableEq, Repr

/-- The `openai` part of `AISettings` (src/types.ts). -/
structure OpenAIConfig where
  baseUrl : String
  apiKey : String
  model : String
deriving DecidableEq, Repr

/-- The `AISettings` interface from src/types.ts.  The provider is a `String` (the
source type is the union `'gemini' | 'openai'`, but at runtime any
string — including the falsy empty string — can appear). -/
structure AISettings where
  provider : String
  gemini : GeminiConfig
  openai : OpenAIConfig
deriving DecidableEq, Repr

/-! ## Persisted (possibly old-shape) settings

`JSON.parse` of a persisted blob can lack any key, so every field is an
`Option`: `none` models a missing JSON key. -/

/-- A persisted `gemini` object that may lack its `apiKey` key. -/
structure PartialGeminiConfig where
  apiKey : Option String
deriving DecidableEq, Repr

/-- A persisted `openai` object that may lack any of its keys. -/
structure PartialOpenAIConfig where
  baseUrl : Option String
  apiKey : Option String
  model : Option String
deriving DecidableEq, Repr

/-- A persisted settings object that may lack any top-level key. -/
structure PartialAISettings where
  provider : Option String
  gemini : Option PartialGeminiConfig
  openai : Option PartialOpenAIConfig
deriving DecidableEq, Repr

/-- The result of the load-time spread `{ ...DEFAULT_SETTINGS, ...parsed }`:
every top-level key is present, but a nested object taken from `parsed`
may still be partial. -/
structure LoadedSettings where
  provider : String
  gemini : PartialGeminiConfig
  openai : PartialOpenAIConfig
deriving DecidableEq, Repr

/-! ## App component (src/unnamed/part_000) -/

/-- The `DEFAULT_SETTINGS` constant of the App component. -/
def DEFAULT_SETTINGS : AISettings :=
  { provider := "gemini"
    gemini := { apiKey := "" }
    openai := { baseUrl := "https://api.openai.com/v1", apiKey := "", model := "gpt-4o" } }

/-- View of a full settings object as a parsed JSON value: serialising
with `JSON.stringify` and parsing back yields every key present. -/
def toPartial (s : AISettings) : PartialAISettings :=
  { provider := some s.provider
    gemini := some { apiKey := some s.gemini.apiKey }
    openai := some { baseUrl := some s.openai.baseUrl
                     apiKey := some s.openai.apiKey
                     model := some s.openai.model } }

/-- View of a full settings object as a `LoadedSettings` (all nested
fields present). -/
def toLoaded (s : AISettings) : LoadedSettings :=
  { provider := s.provider
    gemini := { apiKey := some s.gemini.apiKey }
    openai := { baseUrl := some s.openai.baseUrl
                apiKey := some s.openai.apiKey
                model := some s.openai.model } }

/-- The settings-load merge of the App component:
`setAiSettings({ ...DEFAULT_SETTINGS, ...parsed })`.  A JavaScript
object spread is shallow: a top-level key present in `parsed` replaces
the default value wholesale (even if the nested object is partial), and
a missing top-level key keeps the default. -/
def mergeSettingsOnLoad (parsed : PartialAISettings) : LoadedSettings :=
  { provider := parsed.provider.getD DEFAULT_SETTINGS.provider
    gemini := parsed.gemini.getD { apiKey := some DEFAULT_SETTINGS.gemini.apiKey }
    openai := parsed.openai.getD
      { baseUrl := some DEFAULT_SETTINGS.openai.baseUrl
        apiKey := some DEFAULT_SETTINGS.openai.apiKey
        model := some DEFAULT_SETTINGS.openai.model } }

/-- Function `saveToHistory` of the App component:
`const updatedHistory = [newItem, ...history].slice(0, 20)`. -/
def saveToHistory (newItem : HistoryItem) (history : List HistoryItem) : List HistoryItem :=
  (newItem :: history).take 20

/-- Function `handleDeleteHistory` of the App component: the filtered list is both
stored with `setHistory` (first component: in-memory state) and written
to localStorage (second component: the persisted blob's content). -/
def handleDeleteHistory (id : String) (history : List HistoryItem) :
    List HistoryItem × List HistoryItem :=
  let updatedHistory := history.filter (fun item => item.id != id)
  (updatedHistory, updatedHistory)

/-- The mapping loop of `handleGenerateQuiz`:
`response.questions.map((q, idx) => ({id: idx, text: q.questionText, ...}))`,
written with the running index made explicit.  No validation of any kind
is performed on the records. -/
def mapQuestionsFrom : Nat → List RawQuestion → List Question
  | _, [] => []
  | idx, q :: rest =>
    { id := idx
      text := q.questionText
      options := q.options
      correctAnswerIndex := q.correctAnswerIndex
      explanation := q.explanation } :: mapQuestionsFrom (idx + 1) rest

/-- The full mapping of `handleGenerateQuiz` (indices start at 0). -/
def mapQuestions (response : List RawQuestion) : List Question :=
  mapQuestionsFrom 0 response

/-- The scoring reduce of `handleQuizComplete`:
`userAnswers.reduce((acc, answer, idx) => answer === questions[idx].correctAnswerIndex ? acc + 1 : acc, 0)`.
The `none` branch models the (unreachable for equal-length inputs)
out-of-bounds lookup. -/
def scoreLoop (questions : List Question) : Nat → List Int → Nat → Nat
  | _, [], acc => acc
  | idx, answer :: rest, acc =>
    scoreLoop questions (idx + 1) rest
      (match questions[idx]? with
       | some q => if answer == q.correctAnswerIndex then acc + 1 else acc
       | none => acc)

/-- Function `handleQuizComplete` of the App component: computes the score and
assembles the `QuizResult`. -/
def handleQuizComplete (userAnswers : List Int) (questions : List Question) : QuizResult :=
  { score := scoreLoop questions 0 userAnswers 0
    total := questions.length
    userAnswers := userAnswers
    questions := questions }

/-! ## Quiz generation service (src/services/geminiService.ts) -/

/-- Provider selection in `generateQuizFromContent`:
`const provider = settings?.provider || 'gemini'`.  `none` models an
absent `settings` argument; the empty string is the falsy string. -/
def selectedProvider (settings : Option AISettings) : String :=
  match settings with
  | none => "gemini"
  | some s => if s.provider = "" then "gemini" else s.provider

/-- The two adapters dispatched over in `generateQuizFromContent`. -/
inductive ProviderChoice where
  | gemini
  | openai
deriving DecidableEq, Repr

/-- The dispatch of `generateQuizFromContent`:
`if (provider === 'gemini') { generateWithGemini ... } else { generateWithOpenAI ... }`. -/
def dispatchProvider (settings : Option AISettings) : ProviderChoice :=
  if selectedProvider settings = "gemini" then .gemini else .openai

/-- Key resolution in `generateWithGemini`:
`const apiKey = settings?.gemini?.apiKey || process.env.API_KEY`.
`envKey` is the value of `process.env.API_KEY` (used verbatim when the
user key is absent or falsy). -/
def geminiEffectiveApiKey (settings : Option AISettings) (envKey : String) : String :=
  match settings with
  | none => envKey
  | some s => if s.gemini.apiKey = "" then envKey else s.gemini.apiKey

/-- The observable fields of the HTTP request built by `generateWithOpenAI`. -/
structure OpenAIRequest where
  url : String
  method : String
  authHeader : String
  model : String
  responseFormatType : String
deriving DecidableEq, Repr

/-- The request construction of `generateWithOpenAI`:
`fetch('https://api.openai.com/v1/chat/completions', { method: 'POST',
headers: { Authorization: Bearer ..., ... }, body: JSON.stringify({
model: config?.model || 'gpt-4o', messages, response_format: {type:
"json_object"} }) })`.  The URL is a string literal in the source; the
`baseUrl` field of the config is not read anywhere in the function. -/
def buildOpenAIRequest (config : OpenAIConfig) : OpenAIRequest :=
  { url := "https://api.openai.com/v1/chat/completions"
    method := "POST"
    authHeader := "Bearer " ++ config.apiKey
    model := if config.model = "" then "gpt-4o" else config.model
    responseFormatType := "json_object" }

/-- The page loop of `extractTextFromPdf`.  Each element of the input
list is the outcome of extracting one page's text (`Except.error` models
`getPage`/`getTextContent` throwing); the loop index `i` starts at 1.
A failing page appends the literal failure marker and the loop
continues; a successful page appends its marked text. -/
def pdfPagesLoop : Nat → List (Except String String) → String → String
  | _, [], fullText => fullText
  | i, pageResult :: rest, fullText =>
    match pageResult with
    | .ok pageText =>
      pdfPagesLoop (i + 1) rest
        (fullText ++ ("--- PAGE " ++ toString i ++ " ---\n" ++ pageText ++ "\n\n"))
    | .error _ =>
      pdfPagesLoop (i + 1) rest
        (fullText ++ ("--- PAGE " ++ toString i ++ " (Extraction Failed) ---\n\n"))

/-- Function `extractTextFromPdf` after a successful document-level load, over
the per-page extraction outcomes: runs the page loop, then fails only
when the accumulated text is empty or whitespace-only. -/
def extractTextFromPdf (pages : List (Except String String)) : Except String String :=
  let fullText := pdfPagesLoop 1 pages ""
  if fullText.trim = "" then
    .error "PDF appears to be empty or contains only scanned images without text layer."
  else
    .ok fullText

/-! ## Quiz session state machine (src/components/QuizInterface.tsx) -/

/-- The component state of `QuizInterface`: `currentIndex`,
`selectedAnswers` (`-1` is the unanswered sentinel from
`new Array(questions.length).fill(-1)`), `showExplanation`. -/
structure QuizState where
  currentIndex : Nat
  selectedAnswers : List Int
  showExplanation : Bool
deriving DecidableEq, Repr

/-- Initial state of `QuizInterface` for `n` questions. -/
def initQuizState (n : Nat) : QuizState :=
  { currentIndex := 0
    selectedAnswers := List.replicate n (-1)
    showExplanation := false }

/-- The flag `hasAnsweredCurrent = selectedAnswers[currentIndex] !== -1`.
An out-of-bounds read gives `undefined`, and `undefined !== -1` is
`true`, hence the `none => true` branch. -/
def hasAnsweredCurrent (s : QuizState) : Bool :=
  match s.selectedAnswers[s.currentIndex]? with
  | some a => a != -1
  | none => true

/-- Handler `handleOptionSelect`: returns unchanged when the current question is
already answered, otherwise records the option and shows the
explanation. -/
def handleOptionSelect (s : QuizState) (optionIndex : Int) : QuizState :=
  if hasAnsweredCurrent s then s
  else
    { s with
      selectedAnswers := s.selectedAnswers.set s.currentIndex optionIndex
      showExplanation := true }

/-- The `disabled={!hasAnsweredCurrent}` attribute of the Next/Finish
button: advancing is only offered once the current question is
answered. -/
def nextButtonDisabled (s : QuizState) : Bool :=
  !(hasAnsweredCurrent s)

/-- A session is either still on a question or completed with the final
answer list (`onComplete(selectedAnswers)`). -/
inductive QuizPhase where
  | active (s : QuizState)
  | completed (answers : List Int)
deriving DecidableEq, Repr

/-- Handler `handleNext`: on the last question (`currentIndex === questions.length - 1`)
completes with the answer list, otherwise moves to the next question and
hides the explanation. -/
def handleNext (questions : List Question) (s : QuizState) : QuizPhase :=
  if s.currentIndex = questions.length - 1 then
    .completed s.selectedAnswers
  else
    .active { s with currentIndex := s.currentIndex + 1, showExplanation := false }

/-- One user cycle on an active session: select an option, then press
Next.  A completed session ignores further input. -/
def sessionStep (questions : List Question) (ph : QuizPhase) (k : Int) : QuizPhase :=
  match ph with
  | .completed a => .completed a
  | .active s => handleNext questions (handleOptionSelect s k)

/-- A whole session: starting from the initial state, one
select-then-advance cycle per element of `ks`. -/
def runSession (questions : List Question) (ks : List Int) : QuizPhase :=
  ks.foldl (sessionStep questions) (.active (initQuizState questions.length))

/-! ## Concrete sample inputs used by witnesses and counterexamples -/

/-- A history entry with a numeric id, used to build concrete histories. -/
def sampleItem (n : Nat) : HistoryItem :=
  { id := toString n, fileName := "notes.pdf", date := "2026-01-01", difficulty := .easy,
    questions := [] }

/-- A concrete history already holding the 20-entry maximum. -/
def sampleHistory20 : List HistoryItem :=
  (List.range 20).map sampleItem

/-- A provider record violating the output contract: 3 options and a
correct-answer index of 7. -/
def badRaw : RawQuestion :=
  { questionText := "Which?", options := ["a", "b", "c"], correctAnswerIndex := 7,
    explanation := "because" }

/-- A persisted old-shape settings blob: `openai` is present but lacks
`baseUrl` and `model`, and `gemini` is missing entirely. -/
def oldShapeSettings : PartialAISettings :=
  { provider := some "openai"
    gemini := none
    openai := some { baseUrl := none, apiKey := some "sk-abc", model := none } }

/-- A generic-provider configuration pointing at a local Ollama server. -/
def ollamaConfig : OpenAIConfig :=
  { baseUrl := "http://localhost:11434/v1", apiKey := "test-key", model := "llama-3.1-70b" }

/-- A quiz state on question 0 of 2 with nothing answered yet. -/
def sampleUnanswered : QuizState :=
  { currentIndex := 0, selectedAnswers := [-1, -1], showExplanation := false }

/-- A quiz state on question 0 of 2 whose current answer (option 2) is
already recorded and revealed. -/
def sampleRevealed : QuizState :=
  { currentIndex := 0, selectedAnswers := [2, -1], showExplanation := true }

/-- A concrete 3-question sequence whose correct indices are 1, 2, 0. -/
def scenarioQuestions : List Question :=
  [ { id := 0, text := "q0", options := ["a", "b", "c", "d"], correctAnswerIndex := 1,
      explanation := "e0" },
    { id := 1, text := "q1", options := ["a", "b", "c", "d"], correctAnswerIndex := 2,
      explanation := "e1" },
    { id := 2, text := "q2", options := ["a", "b", "c", "d"], correctAnswerIndex := 0,
      explanation := "e2" } ]

/-! ## Helper lemmas -/

theorem mapQuestionsFrom_length (qs : List RawQuestion) :
    ∀ k : Nat, (mapQuestionsFrom k qs).length = qs.length := by
  induction qs with
  | nil => intro k; rfl
  | cons q rest ih => intro k; simp [mapQuestionsFrom, ih (k + 1)]

theorem mapQuestionsFrom_getElem (qs : List RawQuestion) :
    ∀ (k i : Nat), (mapQuestionsFrom k qs)[i]? =
      qs[i]?.map (fun q =>
        { id := k + i, text := q.questionText, options := q.options,
          correctAnswerIndex := q.correctAnswerIndex,
          explanation := q.explanation }) := by
  induction qs with
  | nil => intro k i; simp [mapQuestionsFrom]
  | cons q rest ih =>
    intro k i
    cases i with
    | zero => simp [mapQuestionsFrom]
    | succ j =>
      have h := ih (k + 1) j
      simp only [mapQuestionsFrom, List.getElem?_cons_succ, h]
      have hk : k + 1 + j = k + (j + 1) := by omega
      rw [hk]

theorem scoreLoop_eq (qs : List Question) :
    ∀ (ua : List Int) (idx acc : Nat),
      scoreLoop qs idx ua acc =
        acc + (ua.zip (qs.drop idx)).countP (fun p => p.1 == p.2.correctAnswerIndex) := by
  intro ua
  induction ua with
  | nil => intro idx acc; simp [scoreLoop]
  | cons a rest ih =>
    intro idx acc
    cases h : qs[idx]? with
    | none =>
      have hlen : qs.length ≤ idx := List.getElem?_eq_none_iff.mp h
      have hdrop : qs.drop idx = [] := List.drop_eq_nil_of_le hlen
      have hdrop1 : qs.drop (idx + 1) = [] := List.drop_eq_nil_of_le (by omega)
      simp only [scoreLoop, h, ih (idx + 1) acc, hdrop, hdrop1]
      simp
    | some q =>
      obtain ⟨hlt, hq⟩ := List.getElem?_eq_some_iff.mp h
      have hdrop : qs.drop idx = q :: qs.drop (idx + 1) := by
        rw [List.drop_eq_getElem_cons hlt, hq]
      rw [hdrop, List.zip_cons_cons, List.countP_cons]
      simp only [scoreLoop, h, ih (idx + 1)]
      by_cases hb : (a == q.correctAnswerIndex) = true
      · simp only [hb, if_true]
        omega
      · rw [eq_false_of_ne_true hb]
        simp only [if_false, Bool.false_eq_true]
        omega

theorem pdfPagesLoop_eq (pages : List (Except String String)) :
    ∀ (i : Nat) (acc : String),
      pdfPagesLoop i pages acc =
        acc ++ ((List.enumFrom i pages).map fun p =>
          match p.2 with
          | .ok t => "--- PAGE " ++ toString p.1 ++ " ---\n" ++ t ++ "\n\n"
          | .error _ =>
            "--- PAGE " ++ toString p.1 ++ " (Extraction Failed) ---\n\n").foldr
          (fun a b => a ++ b) "" := by
  induction pages with
  | nil => intro i acc; simp [pdfPagesLoop]
  | cons r rest ih =>
    intro i acc
    cases r with
    | ok t =>
      simp only [pdfPagesLoop, List.enumFrom_cons, List.map_cons, List.foldr_cons, ih]
      rw [String.append_assoc]
    | error e =>
      simp only [pdfPagesLoop, List.enumFrom_cons, List.map_cons, List.foldr_cons, ih]
      rw [String.append_assoc]

theorem hasAnsweredCurrent_false_elim {s : QuizState}
    (h : hasAnsweredCurrent s = false) :
    s.selectedAnswers[s.currentIndex]? = some (-1) := by
  unfold hasAnsweredCurrent at h
  cases hm : s.selectedAnswers[s.currentIndex]? with
  | none => rw [hm] at h; simp at h
  | some a =>
    rw [hm] at h
    simp only [bne_eq_false_iff_eq] at h
    rw [h]

theorem handleOptionSelect_records {s : QuizState} {k : Int}
    (hna : hasAnsweredCurrent s = false) (hk : k ≠ -1) :
    hasAnsweredCurrent (handleOptionSelect s k) = true := by
  have hcur := hasAnsweredCurrent_false_elim hna
  obtain ⟨hlt, -⟩ := List.getElem?_eq_some_iff.mp hcur
  unfold handleOptionSelect
  rw [hna]
  simp only [Bool.false_eq_true, if_false, hasAnsweredCurrent]
  rw [List.getElem?_set_self hlt]
  simp [hk]

theorem sessionStep_active (qs : List Question) (s : QuizState) (k : Int) :
    sessionStep qs (.active s) k = handleNext qs (handleOptionSelect s k) := rfl

theorem handleOptionSelect_length (s : QuizState) (k : Int) :
    (handleOptionSelect s k).selectedAnswers.length = s.selectedAnswers.length := by
  unfold handleOptionSelect
  cases h : hasAnsweredCurrent s <;> simp

theorem handleOptionSelect_currentIndex (s : QuizState) (k : Int) :
    (handleOptionSelect s k).currentIndex = s.currentIndex := by
  unfold handleOptionSelect
  cases h : hasAnsweredCurrent s <;> simp

theorem runSession_aux (qs : List Question) :
    ∀ (ks : List Int) (s : QuizState),
      ks ≠ [] → s.currentIndex + ks.length = qs.length →
      ∃ answers : List Int,
        ks.foldl (sessionStep qs) (.active s) = .completed answers ∧
        answers.length = s.selectedAnswers.length := by
  intro ks
  induction ks with
  | nil => intro s hne _; exact absurd rfl hne
  | cons k rest ih =>
    intro s _ hlen
    rw [List.foldl_cons, sessionStep_active]
    cases rest with
    | nil =>
      have hcur : s.currentIndex = qs.length - 1 := by
        simp only [List.length_cons, List.length_nil] at hlen
        omega
      refine ⟨(handleOptionSelect s k).selectedAnswers, ?_, handleOptionSelect_length s k⟩
      unfold handleNext
      rw [handleOptionSelect_currentIndex, if_pos hcur]
      rfl
    | cons k2 rest2 =>
      have hcur : ¬((handleOptionSelect s k).currentIndex = qs.length - 1) := by
        rw [handleOptionSelect_currentIndex]
        simp only [List.length_cons] at hlen
        omega
      rw [handleNext, if_neg hcur]
      have hstep := ih { handleOptionSelect s k with
          currentIndex := (handleOptionSelect s k).currentIndex + 1
          showExplanation := false } (by simp) (by
        simp only [handleOptionSelect_currentIndex]
        simp only [List.length_cons] at hlen ⊢
        omega)
      obtain ⟨answers, hfold, hlen2⟩ := hstep
      refine ⟨answers, hfold, ?_⟩
      rw [hlen2]
      exact handleOptionSelect_length s k

/-! ## Claim theorems -/

/-- C1 (counterexample): the record `badRaw` — 3 options, correct-answer
index 7 — is mapped straight through by the `handleGenerateQuiz` mapping
into the question sequence; no error of any kind is raised, refuting the
claim that such records trigger `MalformedResponseError`. -/
theorem mapQuestions_passes_malformed :
    mapQuestions [badRaw] =
      [{ id := 0, text := "Which?", options := ["a", "b", "c"],
         correctAnswerIndex := 7, explanation := "because" }] ∧
    badRaw.options.length ≠ 4 ∧
    ¬(0 ≤ badRaw.correctAnswerIndex ∧ badRaw.correctAnswerIndex ≤ 3) := by
  exact ⟨rfl, by decide, by decide⟩

/-- C1 (amended): the mapping of provider records into `Question`
entities performs no validation at all — it is total, preserves length,
and copies every field verbatim (assigning ordinal ids), so records with
a wrong option count or an out-of-range correct-answer index pass
through silently. -/
theorem mapQuestions_no_validation (response : List RawQuestion) :
    (mapQuestions response).length = response.length ∧
    ∀ i : Nat, (mapQuestions response)[i]? =
      response[i]?.map (fun q =>
        { id := i, text := q.questionText, options := q.options,
          correctAnswerIndex := q.correctAnswerIndex,
          explanation := q.explanation }) := by
  constructor
  · exact mapQuestionsFrom_length response 0
  · intro i
    have h := mapQuestionsFrom_getElem response 0 i
    simpa using h

/-- C2: evaluating the request builder of `generateWithOpenAI` at a
configuration whose base URL points at a local Ollama server shows the
request goes to the hardcoded `https://api.openai.com/v1/chat/completions`
and not to `{baseUrl}/chat/completions`; the bearer header, model and
`response_format` parts of the claim do hold. -/
theorem openAIRequest_ignores_baseUrl :
    (buildOpenAIRequest ollamaConfig).url = "https://api.openai.com/v1/chat/completions" ∧
    (buildOpenAIRequest ollamaConfig).url ≠ ollamaConfig.baseUrl ++ "/chat/completions" ∧
    (buildOpenAIRequest ollamaConfig).method = "POST" ∧
    (buildOpenAIRequest ollamaConfig).authHeader = "Bearer " ++ ollamaConfig.apiKey ∧
    (buildOpenAIRequest ollamaConfig).model = ollamaConfig.model ∧
    (buildOpenAIRequest ollamaConfig).responseFormatType = "json_object" := by
  refine ⟨rfl, by decide, rfl, rfl, by decide, rfl⟩

/-- C3 (counterexample): loading the persisted blob `oldShapeSettings`,
whose `openai` object is present but lacks `baseUrl` and `model`, leaves
those nested fields missing instead of filling them from the defaults —
the spread merge is shallow. -/
theorem settings_load_missing_nested_not_filled :
    (mergeSettingsOnLoad oldShapeSettings).openai.baseUrl = none ∧
    (mergeSettingsOnLoad oldShapeSettings).openai.baseUrl ≠
      some DEFAULT_SETTINGS.openai.baseUrl ∧
    (mergeSettingsOnLoad oldShapeSettings).openai.model = none := by
  refine ⟨rfl, by decide, rfl⟩

/-- C3 (amended): saving a full current-shape settings object and
loading it back round-trips structurally, and a missing *top-level*
field (provider, the whole `gemini` object, the whole `openai` object)
is filled from the defaults; nested fields missing inside a present
nested object are not filled (see the counterexample). -/
theorem settings_load_merge_spec :
    (∀ s : AISettings, mergeSettingsOnLoad (toPartial s) = toLoaded s) ∧
    (∀ p : PartialAISettings,
      (p.provider = none → (mergeSettingsOnLoad p).provider = DEFAULT_SETTINGS.provider) ∧
      (p.gemini = none →
        (mergeSettingsOnLoad p).gemini = { apiKey := some DEFAULT_SETTINGS.gemini.apiKey }) ∧
      (p.openai = none →
        (mergeSettingsOnLoad p).openai =
          { baseUrl := some DEFAULT_SETTINGS.openai.baseUrl
            apiKey := some DEFAULT_SETTINGS.openai.apiKey
            model := some DEFAULT_SETTINGS.openai.model })) := by
  constructor
  · intro s; rfl
  · intro p
    refine ⟨?_, ?_, ?_⟩ <;> intro h <;> simp [mergeSettingsOnLoad, h]

theorem settings_load_merge_spec_witness :
    mergeSettingsOnLoad (toPartial DEFAULT_SETTINGS) = toLoaded DEFAULT_SETTINGS ∧
    (mergeSettingsOnLoad { provider := none, gemini := none, openai := none }).provider =
      DEFAULT_SETTINGS.provider :=
  ⟨settings_load_merge_spec.1 DEFAULT_SETTINGS,
   (settings_load_merge_spec.2 { provider := none, gemini := none, openai := none }).1 rfl⟩

/-- C4: inserting into a history of exactly 20 entries evicts exactly
the oldest (last) entry, leaving 20 entries with the new one first and
order otherwise preserved; inserting into a shorter history evicts
nothing. -/
theorem saveToHistory_bound (item : HistoryItem) (history : List HistoryItem) :
    (history.length = 20 →
      saveToHistory item history = item :: history.dropLast ∧
      (saveToHistory item history).length = 20) ∧
    (history.length < 20 → saveToHistory item history = item :: history) := by
  constructor
  · intro h
    constructor
    · have : history.dropLast = history.take 19 := by
        rw [List.dropLast_eq_take, h]
      rw [saveToHistory, List.take_succ_cons, this]
    · simp [saveToHistory, h]
  · intro h
    rw [saveToHistory, List.take_succ_cons, List.take_of_length_le (by omega)]

theorem saveToHistory_bound_witness :
    saveToHistory (sampleItem 20) sampleHistory20 =
      sampleItem 20 :: sampleHistory20.dropLast ∧
    saveToHistory (sampleItem 20) [] = [sampleItem 20] :=
  ⟨((saveToHistory_bound (sampleItem 20) sampleHistory20).1 (by simp [sampleHistory20])).1,
   (saveToHistory_bound (sampleItem 20) []).2 (by simp)⟩

/-- C9: with an absent settings argument or a falsy provider string the
Gemini adapter is selected, and in the Gemini path the API key falls
back to the environment key whenever no user key is present. -/
theorem gemini_default_spec (envKey : String) :
    dispatchProvider none = ProviderChoice.gemini ∧
    selectedProvider none = "gemini" ∧
    (∀ s : AISettings, s.provider = "" →
      dispatchProvider (some s) = ProviderChoice.gemini ∧
      selectedProvider (some s) = "gemini") ∧
    geminiEffectiveApiKey none envKey = envKey ∧
    (∀ s : AISettings, s.gemini.apiKey = "" →
      geminiEffectiveApiKey (some s) envKey = envKey) := by
  refine ⟨rfl, rfl, ?_, rfl, ?_⟩
  · intro s h
    constructor
    · simp [dispatchProvider, selectedProvider, h]
    · simp [selectedProvider, h]
  · intro s h
    simp [geminiEffectiveApiKey, h]

theorem gemini_default_spec_witness :
    dispatchProvider (some { DEFAULT_SETTINGS with provider := "" }) =
      ProviderChoice.gemini ∧
    geminiEffectiveApiKey (some DEFAULT_SETTINGS) "env-key" = "env-key" :=
  ⟨((gemini_default_spec "env-key").2.2.1 { DEFAULT_SETTINGS with provider := "" } rfl).1,
   (gemini_default_spec "env-key").2.2.2.2 DEFAULT_SETTINGS rfl⟩

/-- C10: deleting a history entry by id removes exactly the entries
carrying that id, keeps every other entry (with multiplicity) in its
original relative order, and writes the very same list to the persisted
blob as to the in-memory state. -/
theorem handleDeleteHistory_spec (id : String) (history : List HistoryItem) :
    (∀ x ∈ (handleDeleteHistory id history).1, x.id ≠ id) ∧
    (∀ x ∈ history, x.id ≠ id → x ∈ (handleDeleteHistory id history).1) ∧
    List.Sublist (handleDeleteHistory id history).1 history ∧
    (∀ x : HistoryItem, x.id ≠ id →
      (handleDeleteHistory id history).1.count x = history.count x) ∧
    (handleDeleteHistory id history).2 = (handleDeleteHistory id history).1 := by
  refine ⟨?_, ?_, ?_, ?_, rfl⟩
  · intro x hx
    have := List.of_mem_filter hx
    simpa using this
  · intro x hx hne
    exact List.mem_filter.mpr ⟨hx, by simpa using hne⟩
  · exact List.filter_sublist _
  · intro x hne
    exact List.count_filter (by simpa using hne)

theorem handleDeleteHistory_spec_witness :
    sampleItem 1 ∈ (handleDeleteHistory "0" [sampleItem 0, sampleItem 1]).1 ∧
    (handleDeleteHistory "0" [sampleItem 0, sampleItem 1]).2 =
      (handleDeleteHistory "0" [sampleItem 0, sampleItem 1]).1 :=
  ⟨(handleDeleteHistory_spec "0" [sampleItem 0, sampleItem 1]).2.1 (sampleItem 1)
      (by simp) (by decide),
   (handleDeleteHistory_spec "0" [sampleItem 0, sampleItem 1]).2.2.2.2⟩

/-- C5: for a completed session over `n` questions the score is the
count of positions where the recorded answer equals the question's
correct-option index, the total is `n`, the answer list has length equal
to the total, and an unanswered position (sentinel `-1`) never matches a
question whose correct index is in range, so it counts as incorrect. -/
theorem handleQuizComplete_spec (userAnswers : List Int) (questions : List Question)
    (h : userAnswers.length = questions.length) :
    (handleQuizComplete userAnswers questions).score =
      (userAnswers.zip questions).countP (fun p => p.1 == p.2.correctAnswerIndex) ∧
    (handleQuizComplete userAnswers questions).total = questions.length ∧
    (handleQuizComplete userAnswers questions).userAnswers.length =
      (handleQuizComplete userAnswers questions).total ∧
    ∀ p ∈ userAnswers.zip questions, p.1 = -1 → 0 ≤ p.2.correctAnswerIndex →
      (p.1 == p.2.correctAnswerIndex) = false := by
  refine ⟨?_, rfl, ?_, ?_⟩
  · have hs := scoreLoop_eq questions userAnswers 0 0
    simpa [handleQuizComplete] using hs
  · simpa [handleQuizComplete] using h
  · intro p _ h1 h2
    rw [beq_eq_false_iff_ne]
    omega

theorem handleQuizComplete_spec_witness :
    (handleQuizComplete [1, 0, 0] scenarioQuestions).score = 2 ∧
    (handleQuizComplete [1, 0, 0] scenarioQuestions).total = 3 := by
  have h := handleQuizComplete_spec [1, 0, 0] scenarioQuestions (by decide)
  refine ⟨?_, ?_⟩
  · rw [h.1]; decide
  · rw [h.2.1]; decide

/-- C6: the page loop of `extractTextFromPdf` is total — a failing page
contributes the literal `--- PAGE n (Extraction Failed) ---` marker, a
successful page its text preceded by `--- PAGE n ---`, concatenated in
page order, and the loop always continues through the remaining pages;
on the concrete two-page document whose second page fails, the
accumulated text keeps page 1's text and the literal failure marker for
page 2; and the whole extraction never fails because of a page error —
its only possible error is the empty-document one. -/
theorem extractTextFromPdf_partial_failure :
    (∀ pages : List (Except String String),
      pdfPagesLoop 1 pages "" =
        ((List.enumFrom 1 pages).map fun p =>
          match p.2 with
          | .ok t => "--- PAGE " ++ toString p.1 ++ " ---\n" ++ t ++ "\n\n"
          | .error _ =>
            "--- PAGE " ++ toString p.1 ++ " (Extraction Failed) ---\n\n").foldr
          (fun a b => a ++ b) "") ∧
    pdfPagesLoop 1 [.ok "Page one text", .error "boom"] "" =
      "--- PAGE 1 ---\nPage one text\n\n--- PAGE 2 (Extraction Failed) ---\n\n" ∧
    (∀ pages : List (Except String String),
      extractTextFromPdf pages = .ok (pdfPagesLoop 1 pages "") ∨
      extractTextFromPdf pages =
        .error "PDF appears to be empty or contains only scanned images without text layer.") := by
  refine ⟨?_, rfl, ?_⟩
  · intro pages
    have h := pdfPagesLoop_eq pages 1 ""
    simpa using h
  · intro pages
    unfold extractTextFromPdf
    by_cases h : (pdfPagesLoop 1 pages "").trim = ""
    · right
      rw [if_pos h]
    · left
      rw [if_neg h]

/-- C7: a second `selectOption` on an already-revealed question is a
no-op — the state (and in particular the recorded answer) is unchanged —
so answers are write-once at every question index. -/
theorem handleOptionSelect_write_once (s : QuizState) (k l : Int) :
    (hasAnsweredCurrent s = true → handleOptionSelect s k = s) ∧
    (k ≠ -1 →
      handleOptionSelect (handleOptionSelect s k) l = handleOptionSelect s k) := by
  constructor
  · intro h
    unfold handleOptionSelect
    rw [h]
    simp
  · intro hk
    cases h : hasAnsweredCurrent s with
    | true =>
      have hfix : handleOptionSelect s k = s := by
        unfold handleOptionSelect; rw [h]; simp
      rw [hfix]
      unfold handleOptionSelect; rw [h]; simp
    | false =>
      have h2 := handleOptionSelect_records h hk
      generalize hs : handleOptionSelect s k = t at h2 ⊢
      unfold handleOptionSelect
      rw [h2]
      simp

theorem handleOptionSelect_write_once_witness :
    handleOptionSelect (handleOptionSelect sampleUnanswered 2) 3 =
      handleOptionSelect sampleUnanswered 2 ∧
    handleOptionSelect sampleRevealed 3 = sampleRevealed :=
  ⟨(handleOptionSelect_write_once sampleUnanswered 2 3).2 (by decide),
   (handleOptionSelect_write_once sampleRevealed 3 3).1 (by decide)⟩

/-- C8: a session over `n ≥ 1` questions driven through `n`
select-then-advance cycles always reaches the completed state with an
answer list of length `n`, and whenever the current question is
unanswered the Next button is disabled, so advancing directly from an
awaiting-answer state is never permitted. -/
theorem runSession_completes (questions : List Question) (ks : List Int)
    (hn : 0 < questions.length) (hlen : ks.length = questions.length) :
    (∃ answers : List Int,
      runSession questions ks = .completed answers ∧
      answers.length = questions.length) ∧
    ∀ s : QuizState, hasAnsweredCurrent s = false → nextButtonDisabled s = true := by
  constructor
  · have hne : ks ≠ [] := by
      intro hnil
      rw [hnil] at hlen
      simp at hlen
      omega
    have h := runSession_aux questions ks (initQuizState questions.length) hne
      (by simp [initQuizState, hlen])
    obtain ⟨answers, hfold, hlen2⟩ := h
    refine ⟨answers, hfold, ?_⟩
    rw [hlen2]
    simp [initQuizState]
  · intro s h
    unfold nextButtonDisabled
    rw [h]
    rfl

theorem runSession_completes_witness :
    (∃ answers : List Int,
      runSession scenarioQuestions [1, 0, 0] = .completed answers ∧
      answers.length = scenarioQuestions.length) :=
  (runSession_completes scenarioQuestions [1, 0, 0] (by decide) (by decide)).1

end ExamSim
